import Mathlib

/-!
Verification of the group/event query-and-authorization layer of the
Meetup-style API (Express + Sequelize backend, React frontend).

The definitions below are a shallow embedding of
`src/backend/routes/api/groups.js` and of the client-side event
partitioning in `src/frontend/src/components/SingleGroupPage/index.js`.
Sequelize `findAll` calls with `include`/`group` options are embedded by
the SQL they generate: LEFT OUTER JOINs are lists of rows with `Option`
components (a `none` component is the all-NULL row produced when the
joined table has no match), `GROUP BY` partitions the join rows by the
grouped columns, and `COUNT(col)` counts the rows of a partition whose
`col` is non-NULL.
-/

namespace Api

/-- A Group row (`Groups` table; attributes as in the route file and spec §3). -/
structure Group where
  id : Nat
  organizerId : Nat
  name : String
  about : String
  type : String
  «private» : Bool
  city : String
  state : String
deriving Repr, DecidableEq

/-- A Membership row. -/
structure Membership where
  id : Nat
  groupId : Nat
  userId : Nat
  status : String
deriving Repr, DecidableEq

/-- A GroupImage row. -/
structure GroupImage where
  id : Nat
  groupId : Nat
  url : String
  preview : Bool
deriving Repr, DecidableEq

/-- A Venue row.  Latitude and longitude are embedded as rationals. -/
structure Venue where
  id : Nat
  groupId : Nat
  address : String
  city : String
  state : String
  lat : Rat
  lng : Rat
deriving Repr, DecidableEq

/-- Modelled from the spec: the Event model file is not under `src`; spec §3
lists its attributes as id, groupId, venueId, name, startDate, description,
capacity, price (venueId is a nullable foreign key). -/
structure Event where
  id : Nat
  groupId : Nat
  venueId : Option Nat
  name : String
  startDate : String
  description : String
  capacity : Nat
  price : Rat
deriving Repr, DecidableEq

/-- An Attendance row. -/
structure Attendance where
  id : Nat
  eventId : Nat
  userId : Nat
  status : String
deriving Repr, DecidableEq

/-- An EventImage row. -/
structure EventImage where
  id : Nat
  eventId : Nat
  url : String
  preview : Bool
deriving Repr, DecidableEq

/-- The relational store: one list of rows per table. -/
structure DB where
  groups : List Group
  memberships : List Membership
  groupImages : List GroupImage
  venues : List Venue
  events : List Event
  attendances : List Attendance
  eventImages : List EventImage
deriving Repr, DecidableEq

/-- The row list a LEFT OUTER JOIN contributes for one parent row: the
matching child rows, or a single all-NULL row when there is no match. -/
def orNull {α : Type} (l : List α) : List (Option α) :=
  if l.isEmpty then [none] else l.map some

/-- Membership rows of a group (`Memberships.groupId = g.id`, every status). -/
def membershipsOf (db : DB) (gid : Nat) : List Membership :=
  db.memberships.filter (fun m => m.groupId == gid)

/-- GroupImage rows joined by `GET /groups`: `groupId` matches and `preview = true`
(the `where` of the `required: false` include, hence part of the join condition). -/
def previewImagesOf (db : DB) (gid : Nat) : List GroupImage :=
  db.groupImages.filter (fun i => i.groupId == gid && i.preview)

/-- One entry of the group listing response: the group attributes plus the
computed `numMembers` aggregate and the selected `GroupImages.url`. -/
structure GroupEntry where
  group : Group
  numMembers : Nat
  previewImage : Option String
deriving Repr, DecidableEq

/-- The grouped column `GroupImages.url` of one join row (NULL when the image
side of the row is NULL). -/
def groupRowKey (r : Option Membership × Option GroupImage) : Option String :=
  r.2.map (fun i => i.url)

/-- The join rows `Groups LEFT JOIN Memberships LEFT JOIN GroupImages (preview)`
restricted to one group row, as produced for `GET /groups`. -/
def groupJoinRows (db : DB) (g : Group) : List (Option Membership × Option GroupImage) :=
  (orNull (membershipsOf db g.id)).flatMap
    (fun m => (orNull (previewImagesOf db g.id)).map (fun i => (m, i)))

/-- `GROUP BY Group.id, GroupImages.url` over the join rows of one group row,
with `COUNT(Memberships.id)` as `numMembers` and `GroupImages.url` as
`previewImage` (route `GET /groups`, lines 59-79). -/
def sqlGroupBy (rows : List (Option Membership × Option GroupImage)) (g : Group) :
    List GroupEntry :=
  (rows.map groupRowKey).dedup.map (fun u =>
    { group := g
      numMembers := (rows.filter (fun r => groupRowKey r == u && r.1.isSome)).length
      previewImage := u })

/-- The entries `GET /groups` produces for one group row. -/
def groupEntriesFor (db : DB) (g : Group) : List GroupEntry :=
  sqlGroupBy (groupJoinRows db g) g

/-- `GET /groups`: the public group listing. -/
def getGroups (db : DB) : List GroupEntry :=
  db.groups.flatMap (groupEntriesFor db)

/-- The WHERE clause of the first query of `GET /groups/current`:
`organizerId = uid OR Memberships.userId = uid`, evaluated on a join row
(a NULL membership side makes the second disjunct false). -/
def currentRowKeeps (uid : Nat) (g : Group) (r : Option Membership × Option GroupImage) : Bool :=
  g.organizerId == uid ||
    (match r.1 with
     | some m => m.userId == uid
     | none => false)

/-- The grouped-aggregate entries of the first query of `GET /groups/current`
for one group row (the WHERE clause filters the join rows before grouping). -/
def currentEntriesFor (db : DB) (uid : Nat) (g : Group) : List GroupEntry :=
  sqlGroupBy ((groupJoinRows db g).filter (currentRowKeeps uid g)) g

/-- Ordering of the `GET /groups/current` result rows (`order: ['id']`). -/
def groupEntryLe (a b : GroupEntry) : Prop :=
  a.group.id ≤ b.group.id

instance : DecidableRel groupEntryLe := fun a b =>
  inferInstanceAs (Decidable (a.group.id ≤ b.group.id))

/-- The first query of `GET /groups/current` (grouped aggregates, ordered by id),
before the per-row recount loop. -/
def getGroupsCurrentFirstQuery (db : DB) (uid : Nat) : List GroupEntry :=
  List.insertionSort groupEntryLe (db.groups.flatMap (currentEntriesFor db uid))

/-- `GET /groups/current`: the first query followed by the per-row loop that
recounts all Membership rows of the group and overwrites `numMembers`. -/
def getGroupsCurrent (db : DB) (uid : Nat) : List GroupEntry :=
  (getGroupsCurrentFirstQuery db uid).map
    (fun en => { en with numMembers := (membershipsOf db en.group.id).length })

/-- `GET /groups/current` with the per-row recount loop removed (the response
the route would produce if the grouped aggregate were trusted). -/
def getGroupsCurrentNoRecount (db : DB) (uid : Nat) : List GroupEntry :=
  getGroupsCurrentFirstQuery db uid

/-- `Group.findByPk` / the lookup all `:groupId` routes perform. -/
def findGroup (db : DB) (gid : Nat) : Option Group :=
  db.groups.find? (fun g => g.id == gid)

/-- Cascading delete of a group and its dependents (spec §3: deleting a Group
cascades to its Memberships, GroupImages, Venues, Events, and through Events
to Attendances and EventImages). -/
def cascadeDeleteGroup (db : DB) (gid : Nat) : DB :=
  let deadEvents := (db.events.filter (fun e => e.groupId == gid)).map (fun e => e.id)
  { groups := db.groups.filter (fun g => !(g.id == gid))
    memberships := db.memberships.filter (fun m => !(m.groupId == gid))
    groupImages := db.groupImages.filter (fun i => !(i.groupId == gid))
    venues := db.venues.filter (fun v => !(v.groupId == gid))
    events := db.events.filter (fun e => !(e.groupId == gid))
    attendances := db.attendances.filter (fun a => !(deadEvents.contains a.eventId))
    eventImages := db.eventImages.filter (fun i => !(deadEvents.contains i.eventId)) }

/-- `DELETE /groups/:groupId` with its middleware chain
`requireAuth, groupExists, isOrganizer` in source order (line 203).
The middleware bodies are modelled from the spec (utils/auth is not under
`src`): `requireAuth` rejects an unauthenticated request with 401,
`groupExists` rejects a `:groupId` with no Group row with 404, and
`isOrganizer` rejects a principal other than the group organizer with 403.
`auth` is the authenticated principal id, if any. -/
def deleteGroupRoute (db : DB) (auth : Option Nat) (gid : Nat) : Nat × DB :=
  match auth with
  | none => (401, db)
  | some uid =>
    match findGroup db gid with
    | none => (404, db)
    | some g =>
      if g.organizerId == uid then (200, cascadeDeleteGroup db gid)
      else (403, db)

/-- The request body of `POST /groups` and `PUT /groups/:groupId`; a `none`
field is one absent from the JSON body. -/
structure GroupBody where
  name : Option String
  about : Option String
  type : Option String
  «private» : Option Bool
  city : Option String
  state : Option String
deriving Repr, DecidableEq

/-- The `name` chain of `validateGroup`: `exists({checkFalsy: true})` (default
message) then `isLength({max: 60})` with a custom message. -/
def nameError (v : Option String) : List (String × String) :=
  match v with
  | none => [("name", "Invalid value")]
  | some s =>
    if s == "" then [("name", "Invalid value")]
    else if s.length > 60 then [("name", "Name must be 60 characters or less")]
    else []

/-- The `about` chain of `validateGroup`: `exists({checkFalsy: true})` then
`isLength({min: 50})` with a custom message (the length check also fails on a
missing or empty value, and its message is the one kept for the field). -/
def aboutError (v : Option String) : List (String × String) :=
  match v with
  | none => [("about", "About must be 50 characters or more")]
  | some s =>
    if s == "" then [("about", "About must be 50 characters or more")]
    else if s.length < 50 then [("about", "About must be 50 characters or more")]
    else []

/-- The `type` chain of `validateGroup`: `isIn(['Online', 'In person'])`. -/
def typeError (v : Option String) : List (String × String) :=
  match v with
  | none => [("type", "Type must be Online or In person")]
  | some s =>
    if s == "Online" || s == "In person" then []
    else [("type", "Type must be Online or In person")]

/-- The `private` chain of `validateGroup`: `exists({checkFalsy: false})` then
`isBoolean()`; an absent value fails, a boolean value passes. -/
def privateError (v : Option Bool) : List (String × String) :=
  match v with
  | none => [("private", "Private must be a boolean")]
  | some _ => []

/-- The `city` chain of `validateGroup`: `exists({checkFalsy: true})` with a
custom message. -/
def cityError (v : Option String) : List (String × String) :=
  match v with
  | none => [("city", "City is required")]
  | some s => if s == "" then [("city", "City is required")] else []

/-- The `state` chain of `validateGroup`. -/
def stateError (v : Option String) : List (String × String) :=
  match v with
  | none => [("state", "State is required")]
  | some s => if s == "" then [("state", "State is required")] else []

/-- The per-field error map `validateGroup` + `handleValidationErrors`
accumulate on a group body (empty exactly when validation passes). -/
def validateGroupErrors (b : GroupBody) : List (String × String) :=
  nameError b.name ++ aboutError b.about ++ typeError b.type ++
    privateError b.«private» ++ cityError b.city ++ stateError b.state

/-- Auto-increment id for a new Group row. -/
def nextGroupId (db : DB) : Nat :=
  (db.groups.map (fun g => g.id)).foldr max 0 + 1

/-- `POST /groups` (lines 153-167): `requireAuth`, then `validateGroup` (400
with the per-field error map, before any write), then `Group.create` with the
requester as organizer. -/
def postGroupRoute (db : DB) (auth : Option Nat) (b : GroupBody) : Nat × DB :=
  match auth with
  | none => (401, db)
  | some uid =>
    if (validateGroupErrors b).isEmpty then
      (200, { db with groups := db.groups ++
        [{ id := nextGroupId db
           organizerId := uid
           name := b.name.getD ""
           about := b.about.getD ""
           type := b.type.getD ""
           «private» := b.«private».getD false
           city := b.city.getD ""
           state := b.state.getD "" }] })
    else (400, db)

/-- `PUT /groups/:groupId` (lines 187-201): `requireAuth, groupExists,
isOrganizer, validateGroup`, then `group.set({name, about, type, private,
city, state})` followed by `group.save()` — an UPDATE of exactly those six
columns of the row with the given id. -/
def putGroupRoute (db : DB) (auth : Option Nat) (gid : Nat) (b : GroupBody) : Nat × DB :=
  match auth with
  | none => (401, db)
  | some uid =>
    match findGroup db gid with
    | none => (404, db)
    | some g =>
      if g.organizerId == uid then
        if (validateGroupErrors b).isEmpty then
          (200, { db with groups := db.groups.map (fun g0 =>
            if g0.id == gid then
              { g0 with
                name := b.name.getD ""
                about := b.about.getD ""
                type := b.type.getD ""
                «private» := b.«private».getD false
                city := b.city.getD ""
                state := b.state.getD "" }
            else g0) })
        else (400, db)
      else (403, db)

/-- The request body of `POST /groups/:groupId/venues`. -/
structure VenueBody where
  address : Option String
  city : Option String
  state : Option String
  lat : Option Rat
  lng : Option Rat
deriving Repr, DecidableEq

/-- The `address` chain of `validateVenue`: `exists({checkFalsy: true})`. -/
def addressError (v : Option String) : List (String × String) :=
  match v with
  | none => [("address", "Street address is required")]
  | some s => if s == "" then [("address", "Street address is required")] else []

/-- The `lat` chain of `validateVenue`: `exists({checkFalsy: true})` (which
treats the number 0 as missing and fails with the default message) then
`isFloat({gt: -89, lt: 91})` with a custom message. -/
def latError (v : Option Rat) : List (String × String) :=
  match v with
  | none => [("lat", "Latitude is not valid")]
  | some x =>
    if x == 0 then [("lat", "Invalid value")]
    else if -89 < x ∧ x < 91 then []
    else [("lat", "Latitude is not valid")]

/-- The `lng` chain of `validateVenue`: `exists({checkFalsy: true})` then
`isFloat({gt: -179, lt: 181})` with a custom message. -/
def lngError (v : Option Rat) : List (String × String) :=
  match v with
  | none => [("lng", "Longitude is not valid")]
  | some x =>
    if x == 0 then [("lng", "Invalid value")]
    else if -179 < x ∧ x < 181 then []
    else [("lng", "Longitude is not valid")]

/-- The per-field error map of `validateVenue` on a venue body. -/
def validateVenueErrors (b : VenueBody) : List (String × String) :=
  addressError b.address ++ cityError b.city ++ stateError b.state ++
    latError b.lat ++ lngError b.lng

/-- Modelled from the spec: the `isOrgOrCo` predicate (utils/auth is not under
`src`); the principal is the group organizer or holds a co-host Membership in
the group. -/
def isOrgOrCoOk (db : DB) (uid : Nat) (g : Group) : Bool :=
  g.organizerId == uid ||
    db.memberships.any (fun m => m.groupId == g.id && m.userId == uid && m.status == "co-host")

/-- Auto-increment id for a new Venue row. -/
def nextVenueId (db : DB) : Nat :=
  (db.venues.map (fun v => v.id)).foldr max 0 + 1

/-- `POST /groups/:groupId/venues` (lines 222-244): `requireAuth, groupExists,
isOrgOrCo, validateVenue`, then `Venue.create`. -/
def postGroupVenueRoute (db : DB) (auth : Option Nat) (gid : Nat) (b : VenueBody) :
    Nat × DB :=
  match auth with
  | none => (401, db)
  | some uid =>
    match findGroup db gid with
    | none => (404, db)
    | some g =>
      if isOrgOrCoOk db uid g then
        if (validateVenueErrors b).isEmpty then
          (200, { db with venues := db.venues ++
            [{ id := nextVenueId db
               groupId := gid
               address := b.address.getD ""
               city := b.city.getD ""
               state := b.state.getD ""
               lat := b.lat.getD 0
               lng := b.lng.getD 0 }] })
        else (400, db)
      else (403, db)

/-- Attendance rows joined by `GET /groups/:groupId/events`: `eventId` matches
and `status = 'attending'` (the `where` of the `required: false` include). -/
def attendingOf (db : DB) (eid : Nat) : List Attendance :=
  db.attendances.filter (fun a => a.eventId == eid && a.status == "attending")

/-- EventImage rows joined by `GET /groups/:groupId/events`: `eventId` matches
and `preview = true`. -/
def eventPreviewImagesOf (db : DB) (eid : Nat) : List EventImage :=
  db.eventImages.filter (fun i => i.eventId == eid && i.preview)

/-- One entry of the group-scoped event listing: the (non-excluded) event
attributes plus `numAttending`, `previewImage`, and the joined Group and
Venue rows the nested summaries are taken from. -/
structure EventEntry where
  event : Event
  numAttending : Nat
  previewImage : Option String
  group : Option Group
  venue : Option Venue
deriving Repr, DecidableEq

/-- The join rows of the three non-Attendance includes of
`GET /groups/:groupId/events` (EventImage with `preview = true`, Group,
Venue; all LEFT OUTER JOINs) for one event row. -/
def eventRestRows (db : DB) (e : Event) :
    List (Option EventImage × Option Group × Option Venue) :=
  (orNull (eventPreviewImagesOf db e.id)).flatMap (fun i =>
    ((orNull (db.groups.filter (fun g => g.id == e.groupId))).flatMap (fun g =>
      (orNull (db.venues.filter (fun v => e.venueId == some v.id))).map
        (fun v => (g, v)))).map (fun p => (i, p)))

/-- The full join rows of `GET /groups/:groupId/events` for one event row. -/
def eventJoinRows (db : DB) (e : Event) :
    List (Option Attendance × (Option EventImage × Option Group × Option Venue)) :=
  (orNull (attendingOf db e.id)).flatMap
    (fun a => (eventRestRows db e).map (fun r => (a, r)))

/-- The grouped columns `EventImages.url, Group.id, Venue.id` of one join row
(`GROUP BY Event.id, EventImages.url, Group.id, Venue.id`; `Event.id` is fixed
within one event row). -/
def eventRowKey (r : Option EventImage × Option Group × Option Venue) :
    Option String × Option Nat × Option Nat :=
  (r.1.map (fun i => i.url), r.2.1.map (fun g => g.id), r.2.2.map (fun v => v.id))

/-- The entries `GET /groups/:groupId/events` produces for one event row:
one entry per distinct grouped key, with `COUNT(Attendances.id)` as
`numAttending` and `EventImages.url` as `previewImage` (lines 246-280). -/
def eventEntriesFor (db : DB) (e : Event) : List EventEntry :=
  let rows := eventJoinRows db e
  (rows.map (fun r => eventRowKey r.2)).dedup.map (fun k =>
    { event := e
      numAttending := (rows.filter (fun r => eventRowKey r.2 == k && r.1.isSome)).length
      previewImage := k.1
      group := (rows.filter (fun r => eventRowKey r.2 == k)).head?.bind (fun r => r.2.2.1)
      venue := (rows.filter (fun r => eventRowKey r.2 == k)).head?.bind (fun r => r.2.2.2) })

/-- The event listing of `GET /groups/:groupId/events`
(`where: {groupId: req.params.groupId}`). -/
def getGroupEvents (db : DB) (gid : Nat) : List EventEntry :=
  (db.events.filter (fun e => e.groupId == gid)).flatMap (eventEntriesFor db)

/-- `GET /groups/:groupId/events` with its `requireAuth, groupExists` guards. -/
def getGroupEventsRoute (db : DB) (auth : Option Nat) (gid : Nat) :
    Nat × Option (List EventEntry) :=
  match auth with
  | none => (401, none)
  | some _ =>
    match findGroup db gid with
    | none => (404, none)
    | some _ => (200, some (getGroupEvents db gid))

/-- A JSON value, for stating which fields a serialized response carries. -/
inductive Jval where
  | str : String → Jval
  | num : Int → Jval
  | bool : Bool → Jval
  | null : Jval
  | obj : List (String × Jval) → Jval

/-- The keys of a JSON object (empty for a non-object). -/
def objKeys : Jval → List String
  | .obj l => l.map (fun p => p.1)
  | _ => []

/-- Serialize an optional value, `none` becoming JSON null. -/
def optJson {α : Type} (f : α → Jval) : Option α → Jval
  | none => .null
  | some x => f x

/-- The nested Group summary of the event listing
(`attributes: ['id', 'name', 'city', 'state']`). -/
def groupSummaryJson (g : Group) : Jval :=
  .obj [("id", .num g.id), ("name", .str g.name),
        ("city", .str g.city), ("state", .str g.state)]

/-- The nested Venue summary of the event listing
(`attributes: ['id', 'city', 'state']`). -/
def venueSummaryJson (v : Venue) : Jval :=
  .obj [("id", .num v.id), ("city", .str v.city), ("state", .str v.state)]

/-- The serialized form of one event-listing entry: the Event attributes minus
the excluded `description, capacity, price, createdAt, updatedAt`, plus the
two computed columns and the nested summaries. -/
def jsonOfEventEntry (en : EventEntry) : List (String × Jval) :=
  [("id", .num en.event.id),
   ("groupId", .num en.event.groupId),
   ("venueId", optJson (fun n => .num n) en.event.venueId),
   ("name", .str en.event.name),
   ("startDate", .str en.event.startDate),
   ("numAttending", .num en.numAttending),
   ("previewImage", optJson .str en.previewImage),
   ("Group", optJson groupSummaryJson en.group),
   ("Venue", optJson venueSummaryJson en.venue)]

/-- A frontend event object as held in the Redux store; `startDate` is the
parsed start timestamp (the integer `Date.parse` / `new Date` comparisons
operate on). -/
structure FrontendEvent where
  id : Nat
  groupId : Nat
  startDate : Int
deriving Repr, DecidableEq

/-- The comparator `(a, b) => Date.parse(a.startDate) - Date.parse(b.startDate)`
as an ordering relation. -/
def frontendEventLe (a b : FrontendEvent) : Prop :=
  a.startDate ≤ b.startDate

instance : DecidableRel frontendEventLe := fun a b =>
  inferInstanceAs (Decidable (a.startDate ≤ b.startDate))

instance : IsTotal FrontendEvent frontendEventLe :=
  ⟨fun a b => Int.le_total a.startDate b.startDate⟩

instance : IsTrans FrontendEvent frontendEventLe :=
  ⟨fun _ _ _ hab hbc => le_trans hab hbc⟩

/-- `getTimeEvents` of `SingleGroupPage` (lines 23-38): push each event into
`pastEvents` when `current > eventDate` (strictly earlier start than now),
else into `upcomingEvents`, then sort both with the ascending comparator. -/
def getTimeEvents (now : Int) (events : List FrontendEvent) :
    List FrontendEvent × List FrontendEvent :=
  let p := events.partition (fun e => e.startDate < now)
  (List.insertionSort frontendEventLe p.1, List.insertionSort frontendEventLe p.2)

/-! ### Concrete stores and request bodies used as test inputs -/

/-- A group owned by user 9. -/
def gW1 : Group :=
  { id := 1, organizerId := 9, name := "g one", about := "a", type := "Online",
    «private» := false, city := "c", state := "s" }

/-- A group owned by user 8. -/
def gW2 : Group :=
  { id := 2, organizerId := 8, name := "g two", about := "a", type := "In person",
    «private» := true, city := "c", state := "s" }

/-- An event of group 1 with no venue. -/
def evW1 : Event :=
  { id := 1, groupId := 1, venueId := none, name := "e", startDate := "2024-01-01",
    description := "d", capacity := 10, price := 5 }

/-- A store with two groups, two memberships (one pending), one preview and one
non-preview group image, and one event with one attending and one pending
attendance and one preview event image. -/
def dbSimple : DB :=
  { groups := [gW1, gW2]
    memberships := [{ id := 1, groupId := 1, userId := 4, status := "member" },
                    { id := 2, groupId := 1, userId := 5, status := "pending" }]
    groupImages := [{ id := 1, groupId := 1, url := "u", preview := true },
                    { id := 2, groupId := 1, url := "v", preview := false }]
    venues := []
    events := [evW1]
    attendances := [{ id := 1, eventId := 1, userId := 4, status := "attending" },
                    { id := 2, eventId := 1, userId := 5, status := "pending" }]
    eventImages := [{ id := 1, eventId := 1, url := "w", preview := true }] }

/-- A store whose one group has one membership and two preview images sharing
one url. -/
def dbDupImg : DB :=
  { groups := [gW1]
    memberships := [{ id := 1, groupId := 1, userId := 7, status := "pending" }]
    groupImages := [{ id := 1, groupId := 1, url := "u", preview := true },
                    { id := 2, groupId := 1, url := "u", preview := true }]
    venues := [], events := [], attendances := [], eventImages := [] }

/-- A store whose one event has one attending attendance and two preview images
sharing one url. -/
def dbDupEvImg : DB :=
  { groups := [gW1], memberships := [], groupImages := [], venues := []
    events := [evW1]
    attendances := [{ id := 1, eventId := 1, userId := 7, status := "attending" }]
    eventImages := [{ id := 1, eventId := 1, url := "u", preview := true },
                    { id := 2, eventId := 1, url := "u", preview := true }] }

/-- A store whose one group (organized by user 9) has two member users 1 and 2. -/
def dbTwoMembers : DB :=
  { groups := [gW1]
    memberships := [{ id := 1, groupId := 1, userId := 1, status := "member" },
                    { id := 2, groupId := 1, userId := 2, status := "member" }]
    groupImages := [], venues := [], events := [], attendances := [], eventImages := [] }

/-- A venue body with the given latitude and otherwise valid fields. -/
def venueBodyLat (x : Rat) : VenueBody :=
  { address := some "addr", city := some "c", state := some "s",
    lat := some x, lng := some 10 }

/-- A 49-character string. -/
def s49 : String := "0123456789012345678901234567890123456789012345678"

/-- A 50-character string. -/
def s50 : String := "01234567890123456789012345678901234567890123456789"

/-- A group body whose `about` has length 49 and whose other fields are valid. -/
def b49 : GroupBody :=
  { name := some "n", about := some s49, type := some "Online",
    «private» := some false, city := some "c", state := some "s" }

/-- A group body whose `about` has length 50 and whose other fields are valid. -/
def b50 : GroupBody :=
  { name := some "n", about := some s50, type := some "Online",
    «private» := some false, city := some "c", state := some "s" }

/-- A fully valid update body. -/
def bUpd : GroupBody :=
  { name := some "new name", about := some s50, type := some "In person",
    «private» := some true, city := some "nc", state := some "ns" }

/-- The event-listing entry of `dbSimple` for its one event. -/
def enEvW : EventEntry :=
  { event := evW1, numAttending := 1, previewImage := some "w",
    group := some gW1, venue := none }

end Api

namespace Api

/-! ### Helper lemmas about `orNull` and the join-row lists -/

theorem orNull_nil {α : Type} : orNull ([] : List α) = [none] := rfl

theorem orNull_of_ne_nil {α : Type} {l : List α} (h : l ≠ []) :
    orNull l = l.map some := by
  cases l with
  | nil => exact absurd rfl h
  | cons a t => rfl

theorem orNull_ne_nil {α : Type} (l : List α) : orNull l ≠ [] := by
  cases l with
  | nil => simp [orNull]
  | cons a t => simp [orNull]

theorem mem_orNull {α : Type} {x : Option α} {l : List α} :
    x ∈ orNull l ↔ (l = [] ∧ x = none) ∨ ∃ a ∈ l, x = some a := by
  cases l with
  | nil => simp [orNull]
  | cons a t =>
    simp only [orNull, List.isEmpty_cons, List.mem_map, List.mem_cons]
    constructor
    · simp only [Bool.false_eq_true, if_false, List.mem_map, List.mem_cons]
      rintro ⟨b, hb, rfl⟩
      exact Or.inr ⟨b, hb, rfl⟩
    · rintro (⟨h, _⟩ | ⟨b, hb, rfl⟩)
      · simp at h
      · simp only [Bool.false_eq_true, if_false, List.mem_map, List.mem_cons]
        exact ⟨b, hb, rfl⟩

theorem length_filter_isSome_map_some {α : Type} (l : List α) :
    ((l.map some).filter (fun o => o.isSome)).length = l.length := by
  induction l with
  | nil => rfl
  | cons a t ih => simp [ih]

theorem length_filter_isSome_orNull {α : Type} (l : List α) :
    ((orNull l).filter (fun o => o.isSome)).length = l.length := by
  cases l with
  | nil => simp [orNull]
  | cons a t =>
    rw [orNull_of_ne_nil (by simp)]
    exact length_filter_isSome_map_some _

/-- Filtering a pairing map: only the second component varies. -/
theorem filter_map_pair {α β : Type} (l : List β) (a : α) (p : α × β → Bool) :
    ((l.map (fun b => (a, b))).filter p) =
      (l.filter (fun b => p (a, b))).map (fun b => (a, b)) := by
  induction l with
  | nil => rfl
  | cons b t ih =>
    simp only [List.map_cons, List.filter_cons]
    cases h : p (a, b) <;> simp [h, ih]

/-- The length of a filtered cross join is the product of the lengths of the
independently filtered sides, when the predicate splits componentwise. -/
theorem length_filter_join {α β : Type} (l1 : List α) (l2 : List β)
    (p : α → Bool) (q : β → Bool) :
    (((l1.flatMap (fun a => l2.map (fun b => (a, b)))).filter
        (fun r => q r.2 && p r.1)).length) =
      (l1.filter p).length * (l2.filter q).length := by
  induction l1 with
  | nil => simp
  | cons a t ih =>
    rw [List.flatMap_cons, List.filter_append, List.length_append, ih,
      filter_map_pair, List.length_map, List.filter_cons]
    have h1 : (List.filter (fun b => q (a, b).2 && p (a, b).1) l2).length
        = (if p a then (l2.filter q).length else 0) := by
      cases h : p a <;> simp [h]
    rw [h1]
    cases h : p a with
    | true =>
      simp only [Nat.succ_mul, if_pos, List.length_cons]
      ring
    | false => simp

/-- Membership in a cross join is componentwise membership. -/
theorem mem_join {α β : Type} {l1 : List α} {l2 : List β} {r : α × β} :
    r ∈ l1.flatMap (fun a => l2.map (fun b => (a, b))) ↔ r.1 ∈ l1 ∧ r.2 ∈ l2 := by
  obtain ⟨a, b⟩ := r
  simp only [List.mem_flatMap, List.mem_map]
  constructor
  · rintro ⟨x, hx, y, hy, h⟩
    injection h with h1 h2
    subst h1
    subst h2
    exact ⟨hx, hy⟩
  · rintro ⟨ha, hb⟩
    exact ⟨a, ha, b, hb, rfl⟩

theorem length_filter_key_eq_one {γ κ : Type} [DecidableEq κ] (f : γ → κ)
    (l : List γ) (hnd : (l.map f).Nodup) {b : γ} (hb : b ∈ l) :
    (l.filter (fun c => f c == f b)).length = 1 := by
  induction l with
  | nil => cases hb
  | cons a t ih =>
    simp only [List.map_cons, List.nodup_cons] at hnd
    rcases List.mem_cons.mp hb with rfl | hbt
    · have hnone : (t.filter (fun c => f c == f b)) = [] := by
        refine List.filter_eq_nil_iff.mpr (fun c hc => ?_)
        simp only [beq_iff_eq]
        intro hcb
        exact hnd.1 (hcb ▸ List.mem_map_of_mem f hc)
      rw [List.filter_cons]
      simp [hnone]
    · have hab : ¬ (f a == f b) = true := by
        simp only [beq_iff_eq]
        intro hfa
        exact hnd.1 (hfa ▸ List.mem_map_of_mem f hbt)
      rw [List.filter_cons]
      simp only [hab]
      simpa using ih hnd.2 hbt

/-- Exactly one row of a NULL-extended join side carries a given key value,
when the original keys have no duplicates. -/
theorem length_filter_orNull_key {γ κ : Type} [DecidableEq κ] (f : γ → κ)
    (l : List γ) (hnd : (l.map f).Nodup) {x : Option γ} (hx : x ∈ orNull l) :
    ((orNull l).filter (fun o => o.map f == x.map f)).length = 1 := by
  rcases mem_orNull.mp hx with ⟨rfl, rfl⟩ | ⟨b, hb, rfl⟩
  · simp [orNull]
  · have hne : l ≠ [] := List.ne_nil_of_mem hb
    rw [orNull_of_ne_nil hne, List.filter_map, List.length_map]
    have h2 : (List.filter ((fun o => Option.map f o == Option.map f (some b)) ∘ some) l)
        = l.filter (fun c => f c == f b) := by
      refine List.filter_congr (fun c _ => ?_)
      simp [Function.comp]
    rw [h2]
    exact length_filter_key_eq_one f l hnd hb

end Api

namespace Api

/-! ### The grouped aggregate of the group listings -/

theorem group_of_mem_sqlGroupBy {rows : List (Option Membership × Option GroupImage)}
    {g : Group} {en : GroupEntry} (hen : en ∈ sqlGroupBy rows g) : en.group = g := by
  unfold sqlGroupBy at hen
  rcases List.mem_map.mp hen with ⟨u, _, rfl⟩
  rfl

theorem previewImage_of_mem_sqlGroupBy {rows : List (Option Membership × Option GroupImage)}
    {g : Group} {en : GroupEntry} (hen : en ∈ sqlGroupBy rows g) :
    ∃ r ∈ rows, en.previewImage = groupRowKey r := by
  unfold sqlGroupBy at hen
  rcases List.mem_map.mp hen with ⟨u, hu, rfl⟩
  rcases List.mem_map.mp (List.mem_dedup.mp hu) with ⟨r, hr, hru⟩
  exact ⟨r, hr, hru.symm⟩

theorem sqlGroupBy_ne_nil {rows : List (Option Membership × Option GroupImage)}
    (hrows : rows ≠ []) (g : Group) : sqlGroupBy rows g ≠ [] := by
  unfold sqlGroupBy
  obtain ⟨r, t, rfl⟩ := List.exists_cons_of_ne_nil hrows
  have hmem : groupRowKey r ∈ ((r :: t).map groupRowKey).dedup :=
    List.mem_dedup.mpr (List.mem_map_of_mem groupRowKey (List.mem_cons_self r t))
  intro hc
  rw [List.map_eq_nil_iff] at hc
  rw [hc] at hmem
  cases hmem

theorem groupJoinRows_ne_nil (db : DB) (g : Group) : groupJoinRows db g ≠ [] := by
  unfold groupJoinRows
  obtain ⟨a, t, h1⟩ := List.exists_cons_of_ne_nil (orNull_ne_nil (membershipsOf db g.id))
  rw [h1, List.flatMap_cons]
  intro hc
  rcases List.append_eq_nil.mp hc with ⟨hmap, _⟩
  exact orNull_ne_nil _ (List.map_eq_nil_iff.mp hmap)

/-- Each entry the grouped query computes for one group row counts all of the
group's memberships, provided no two of the joined preview images share a url. -/
theorem sqlGroupBy_join_numMembers (ms : List Membership) (imgs : List GroupImage)
    (g : Group) (hnd : (imgs.map (fun i => i.url)).Nodup) :
    ∀ en ∈ sqlGroupBy ((orNull ms).flatMap
        (fun m => (orNull imgs).map (fun i => (m, i)))) g,
      en.numMembers = ms.length := by
  intro en hen
  unfold sqlGroupBy at hen
  rcases List.mem_map.mp hen with ⟨u, hu, rfl⟩
  rcases List.mem_map.mp (List.mem_dedup.mp hu) with ⟨r, hr, rfl⟩
  have hr2 : r.2 ∈ orNull imgs := (mem_join.mp hr).2
  have h := length_filter_join (orNull ms) (orNull imgs) (fun o => o.isSome)
    (fun o => o.map (fun i => i.url) == r.2.map (fun i => i.url))
  have h2 := length_filter_isSome_orNull ms
  have h3 := length_filter_orNull_key (fun i => i.url) imgs hnd hr2
  exact h.trans (by simp [h2, h3])

/-- Claim C1 (amended): an entry of the public group listing has `numMembers`
equal to the number of Membership rows of its group — including memberships of
every status, groups with zero memberships, and groups with preview images —
provided no two preview-flagged GroupImage rows of that group share a url
(duplicate preview urls multiply the count; see the counterexample). -/
theorem getGroups_numMembers_of_nodupUrls (db : DB) (en : GroupEntry)
    (hen : en ∈ getGroups db)
    (hnd : ((previewImagesOf db en.group.id).map (fun i => i.url)).Nodup) :
    en.numMembers = (membershipsOf db en.group.id).length := by
  rcases List.mem_flatMap.mp hen with ⟨g, _, hgen⟩
  have hgrp : en.group = g := group_of_mem_sqlGroupBy hgen
  rw [hgrp] at hnd ⊢
  exact sqlGroupBy_join_numMembers (membershipsOf db g.id) (previewImagesOf db g.id)
    g hnd en hgen

theorem getGroups_numMembers_of_nodupUrls_witness :
    ({ group := gW1, numMembers := 2, previewImage := some "u" } : GroupEntry).numMembers
      = (membershipsOf dbSimple gW1.id).length :=
  getGroups_numMembers_of_nodupUrls dbSimple
    { group := gW1, numMembers := 2, previewImage := some "u" }
    (by decide) (by decide)

/-- Claim C1 is false as stated: in `dbDupImg` the one group has one Membership
row but two preview images sharing a url, and the listing reports
`numMembers = 2`. -/
theorem getGroups_numMembers_counterexample :
    ¬ (∀ en ∈ getGroups dbDupImg,
        en.numMembers = (membershipsOf dbDupImg en.group.id).length) := by
  decide

/-- Claim C2: a group appears in the public listing whether or not it has a
preview-flagged image; an entry of a group with no preview-flagged image has
`previewImage = none`, and an entry of a group with at least one carries the
url of one of them. -/
theorem getGroups_previewImage_spec (db : DB) (g : Group) (hg : g ∈ db.groups) :
    (∃ en ∈ getGroups db, en.group = g) ∧
    ∀ en ∈ getGroups db, en.group = g →
      ((previewImagesOf db g.id = [] → en.previewImage = none) ∧
       (previewImagesOf db g.id ≠ [] →
         ∃ i ∈ previewImagesOf db g.id, en.previewImage = some i.url)) := by
  constructor
  · have hne : groupEntriesFor db g ≠ [] :=
      sqlGroupBy_ne_nil (groupJoinRows_ne_nil db g) g
    obtain ⟨en, t, he⟩ := List.exists_cons_of_ne_nil hne
    have henm : en ∈ groupEntriesFor db g := by
      rw [he]; exact List.mem_cons_self en t
    refine ⟨en, List.mem_flatMap.mpr ⟨g, hg, henm⟩, group_of_mem_sqlGroupBy henm⟩
  · intro en hen hgrp
    rcases List.mem_flatMap.mp hen with ⟨g', _, hgen⟩
    have hg' : en.group = g' := group_of_mem_sqlGroupBy hgen
    have hgg : g' = g := by rw [← hg']; exact hgrp
    rw [hgg] at hgen
    rcases previewImage_of_mem_sqlGroupBy hgen with ⟨r, hr, hpre⟩
    have hr2 : r.2 ∈ orNull (previewImagesOf db g.id) := (mem_join.mp hr).2
    constructor
    · intro hempty
      rw [hempty] at hr2
      rcases mem_orNull.mp hr2 with ⟨_, hnone⟩ | ⟨i, hi, _⟩
      · rw [hpre]
        simp [groupRowKey, hnone]
      · cases hi
    · intro hne
      rcases mem_orNull.mp hr2 with ⟨hnil, _⟩ | ⟨i, hi, hsome⟩
      · exact absurd hnil hne
      · refine ⟨i, hi, ?_⟩
        rw [hpre]
        simp [groupRowKey, hsome]

theorem getGroups_previewImage_spec_witness :
    ∃ en ∈ getGroups dbSimple, en.group = gW1 :=
  (getGroups_previewImage_spec dbSimple gW1 (by decide)).1

/-! ### The current-user listing and its recount loop -/

/-- Claim C5 is false as stated: in `dbTwoMembers` user 1 is a member (not the
organizer) of the one group, the grouped aggregate of the first query counts
only user 1's own membership row (the WHERE clause discards the other member's
join row), and the per-row recount overwrites it with the true count 2 — so
dropping the recount changes the response. -/
theorem getGroupsCurrent_recount_needed :
    getGroupsCurrent dbTwoMembers 1 ≠ getGroupsCurrentNoRecount dbTwoMembers 1 := by
  decide

/-- Claim C5 (amended): for a group whose organizer is the requester (and whose
preview images have pairwise-distinct urls), the grouped aggregate of the first
query already equals the total Membership count, so there the recount loop is
redundant; for a group where the requester is only a member the aggregate counts
only the requester's own membership rows and the recount is what makes
`numMembers` correct. -/
theorem getGroupsCurrent_aggregate_organizer (db : DB) (uid : Nat) (g : Group)
    (horg : g.organizerId = uid)
    (hnd : ((previewImagesOf db g.id).map (fun i => i.url)).Nodup) :
    ∀ en ∈ currentEntriesFor db uid g,
      en.numMembers = (membershipsOf db g.id).length := by
  have hfil : (groupJoinRows db g).filter (currentRowKeeps uid g) = groupJoinRows db g := by
    refine List.filter_eq_self.mpr (fun r _ => ?_)
    simp [currentRowKeeps, horg]
  intro en hen
  unfold currentEntriesFor at hen
  rw [hfil] at hen
  exact sqlGroupBy_join_numMembers (membershipsOf db g.id) (previewImagesOf db g.id)
    g hnd en hen

theorem getGroupsCurrent_aggregate_organizer_witness :
    ({ group := gW1, numMembers := 2, previewImage := some "u" } : GroupEntry).numMembers
      = (membershipsOf dbSimple gW1.id).length :=
  getGroupsCurrent_aggregate_organizer dbSimple 9 gW1 rfl (by decide)
    { group := gW1, numMembers := 2, previewImage := some "u" } (by decide)

end Api

namespace Api

/-! ### Guard ordering of the mutation routes -/

/-- Claim C4: on `DELETE /groups/:groupId` the guards run in middleware order —
an unauthenticated request gets 401 regardless of the target; an authenticated
request against a `:groupId` with no Group row gets 404 regardless of the
principal; an authenticated request against an existing group by a principal
other than its organizer gets 403; and a 403 is only ever produced for an
existing group. -/
theorem deleteGroup_guard_order (db : DB) (auth : Option Nat) (gid : Nat) :
    (auth = none → (deleteGroupRoute db auth gid).1 = 401) ∧
    (∀ uid, auth = some uid → findGroup db gid = none →
      (deleteGroupRoute db auth gid).1 = 404) ∧
    (∀ uid g, auth = some uid → findGroup db gid = some g → g.organizerId ≠ uid →
      (deleteGroupRoute db auth gid).1 = 403) ∧
    ((deleteGroupRoute db auth gid).1 = 403 → ∃ g, findGroup db gid = some g) := by
  refine ⟨?_, ?_, ?_, ?_⟩
  · rintro rfl
    rfl
  · rintro uid rfl hf
    simp [deleteGroupRoute, hf]
  · rintro uid g rfl hf hne
    have hbeq : (g.organizerId == uid) = false := beq_eq_false_iff_ne.mpr hne
    simp [deleteGroupRoute, hf, hbeq]
  · intro h403
    cases hauth : auth with
    | none =>
      rw [hauth] at h403
      simp [deleteGroupRoute] at h403
    | some uid =>
      rw [hauth] at h403
      cases hf : findGroup db gid with
      | none =>
        rw [deleteGroupRoute, hf] at h403
        simp at h403
      | some g => exact ⟨g, rfl⟩

theorem deleteGroup_guard_order_witness :
    (deleteGroupRoute dbSimple none 1).1 = 401 ∧
    (deleteGroupRoute dbSimple (some 5) 7).1 = 404 ∧
    (deleteGroupRoute dbSimple (some 5) 1).1 = 403 :=
  ⟨(deleteGroup_guard_order dbSimple none 1).1 rfl,
   (deleteGroup_guard_order dbSimple (some 5) 7).2.1 5 rfl (by decide),
   (deleteGroup_guard_order dbSimple (some 5) 1).2.2.1 5 gW1 rfl (by decide) (by decide)⟩

/-! ### The client-side past/upcoming partition -/

theorem length_filter_add_length_filter_not {α : Type} (l : List α) (p : α → Bool) :
    (l.filter p).length + (l.filter (not ∘ p)).length = l.length := by
  induction l with
  | nil => rfl
  | cons a t ih =>
    cases h : p a <;> simp [List.filter_cons, Function.comp, h] <;> omega

/-- Claim C6: for any fixed current time, `getTimeEvents` puts an event into
the past bucket exactly when its parsed start timestamp is strictly earlier
than now and into the upcoming bucket otherwise (so every event lands in
exactly one bucket), and both buckets are sorted ascending by start
timestamp. -/
theorem getTimeEvents_partition_sorted (now : Int) (events : List FrontendEvent) :
    (∀ e, e ∈ (getTimeEvents now events).1 ↔ e ∈ events ∧ e.startDate < now) ∧
    (∀ e, e ∈ (getTimeEvents now events).2 ↔ e ∈ events ∧ ¬ e.startDate < now) ∧
    (getTimeEvents now events).1.length + (getTimeEvents now events).2.length
      = events.length ∧
    List.Sorted frontendEventLe (getTimeEvents now events).1 ∧
    List.Sorted frontendEventLe (getTimeEvents now events).2 := by
  have hfst : (getTimeEvents now events).1 = List.insertionSort frontendEventLe
      (events.filter (fun e => decide (e.startDate < now))) := by
    show List.insertionSort frontendEventLe
      (events.partition (fun e => decide (e.startDate < now))).1 = _
    rw [List.partition_eq_filter_filter]
  have hsnd : (getTimeEvents now events).2 = List.insertionSort frontendEventLe
      (events.filter (not ∘ (fun e => decide (e.startDate < now)))) := by
    show List.insertionSort frontendEventLe
      (events.partition (fun e => decide (e.startDate < now))).2 = _
    rw [List.partition_eq_filter_filter]
  refine ⟨?_, ?_, ?_, ?_, ?_⟩
  · intro e
    rw [hfst, List.mem_insertionSort, List.mem_filter]
    simp
  · intro e
    rw [hsnd, List.mem_insertionSort, List.mem_filter]
    simp
  · rw [hfst, hsnd, (List.perm_insertionSort _ _).length_eq,
      (List.perm_insertionSort _ _).length_eq]
    exact length_filter_add_length_filter_not events _
  · rw [hfst]
    exact List.sorted_insertionSort frontendEventLe _
  · rw [hsnd]
    exact List.sorted_insertionSort frontendEventLe _

/-! ### Venue validation at the latitude boundary -/

/-- Claim C7 is wrong about the code on latitude 0: the route rejects an
otherwise valid body with `lat = 0` (400, store unchanged), because
`exists({checkFalsy: true})` treats the number 0 as missing, even though 0
lies strictly between -89 and 91; `lat = -90` is rejected as the claim says,
and a nonzero in-range latitude such as 1 is accepted. -/
theorem postGroupVenue_lat_boundary_bug :
    (postGroupVenueRoute dbSimple (some 9) 1 (venueBodyLat 0)).1 = 400 ∧
    (postGroupVenueRoute dbSimple (some 9) 1 (venueBodyLat 0)).2 = dbSimple ∧
    latError (some 0) = [("lat", "Invalid value")] ∧
    (postGroupVenueRoute dbSimple (some 9) 1 (venueBodyLat (-90))).1 = 400 ∧
    (postGroupVenueRoute dbSimple (some 9) 1 (venueBodyLat (-90))).2 = dbSimple ∧
    (postGroupVenueRoute dbSimple (some 9) 1 (venueBodyLat 1)).1 = 200 := by
  refine ⟨rfl, rfl, rfl, ?_, ?_, ?_⟩ <;> decide

end Api

namespace Api

/-! ### The grouped aggregate of the event listing -/

/-- Variant of `length_filter_join` with the componentwise predicate stated
first-component-first. -/
theorem length_filter_join' {α β : Type} (l1 : List α) (l2 : List β)
    (p : α → Bool) (q : β → Bool) :
    (((l1.flatMap (fun a => l2.map (fun b => (a, b)))).filter
        (fun r => p r.1 && q r.2)).length) =
      (l1.filter p).length * (l2.filter q).length := by
  induction l1 with
  | nil => simp
  | cons a t ih =>
    rw [List.flatMap_cons, List.filter_append, List.length_append, ih,
      filter_map_pair, List.length_map, List.filter_cons]
    have h1 : (List.filter (fun b => p (a, b).1 && q (a, b).2) l2).length
        = (if p a then (l2.filter q).length else 0) := by
      cases h : p a <;> simp [h]
    rw [h1]
    cases h : p a with
    | true =>
      simp only [Nat.succ_mul, if_pos, List.length_cons]
      ring
    | false => simp

/-- Exactly one row of the image/group/venue join side carries a given grouped
key, when preview-image urls are distinct for the event and group and venue ids
are distinct in the store. -/
theorem restRows_key_count (db : DB) (e : Event)
    (himg : ((eventPreviewImagesOf db e.id).map (fun i => i.url)).Nodup)
    (hgids : (db.groups.map (fun g => g.id)).Nodup)
    (hvids : (db.venues.map (fun v => v.id)).Nodup)
    {r2 : Option EventImage × Option Group × Option Venue}
    (hr2 : r2 ∈ eventRestRows db e) :
    ((eventRestRows db e).filter (fun x => eventRowKey x == eventRowKey r2)).length
      = 1 := by
  have hi : r2.1 ∈ orNull (eventPreviewImagesOf db e.id) := (mem_join.mp hr2).1
  have hp : r2.2 ∈ (orNull (db.groups.filter (fun g => g.id == e.groupId))).flatMap
      (fun g => (orNull (db.venues.filter (fun v => e.venueId == some v.id))).map
        (fun v => (g, v))) := (mem_join.mp hr2).2
  have hg : r2.2.1 ∈ orNull (db.groups.filter (fun g => g.id == e.groupId)) :=
    (mem_join.mp hp).1
  have hv : r2.2.2 ∈ orNull (db.venues.filter (fun v => e.venueId == some v.id)) :=
    (mem_join.mp hp).2
  have hgnd : ((db.groups.filter (fun g => g.id == e.groupId)).map (fun g => g.id)).Nodup :=
    List.Nodup.sublist (List.Sublist.map (fun g => g.id) (List.filter_sublist db.groups)) hgids
  have hvnd : ((db.venues.filter (fun v => e.venueId == some v.id)).map
      (fun v => v.id)).Nodup :=
    List.Nodup.sublist (List.Sublist.map (fun v => v.id) (List.filter_sublist db.venues)) hvids
  have hA := length_filter_join' (orNull (eventPreviewImagesOf db e.id))
    ((orNull (db.groups.filter (fun g => g.id == e.groupId))).flatMap
      (fun g => (orNull (db.venues.filter (fun v => e.venueId == some v.id))).map
        (fun v => (g, v))))
    (fun o => o.map (fun i => i.url) == r2.1.map (fun i => i.url))
    (fun p => (p.1.map (fun g => g.id) == r2.2.1.map (fun g => g.id)) &&
      (p.2.map (fun v => v.id) == r2.2.2.map (fun v => v.id)))
  have hB := length_filter_join' (orNull (db.groups.filter (fun g => g.id == e.groupId)))
    (orNull (db.venues.filter (fun v => e.venueId == some v.id)))
    (fun o => o.map (fun g => g.id) == r2.2.1.map (fun g => g.id))
    (fun o => o.map (fun v => v.id) == r2.2.2.map (fun v => v.id))
  have f1 := length_filter_orNull_key (fun i => i.url) (eventPreviewImagesOf db e.id) himg hi
  have f2 := length_filter_orNull_key (fun g => g.id)
    (db.groups.filter (fun g => g.id == e.groupId)) hgnd hg
  have f3 := length_filter_orNull_key (fun v => v.id)
    (db.venues.filter (fun v => e.venueId == some v.id)) hvnd hv
  exact hA.trans (by simp [hB, f1, f2, f3])

/-- Claim C3 (amended): an entry of the group-scoped event listing has
`numAttending` equal to the number of Attendance rows of its event whose status
is `attending` — rows with any other status are not counted — provided no two
preview-flagged EventImage rows of the event share a url and group and venue
ids are unique in the store (duplicate preview urls multiply the count; see the
counterexample). -/
theorem getGroupEvents_numAttending_of_nodup (db : DB) (gid : Nat) (en : EventEntry)
    (hen : en ∈ getGroupEvents db gid)
    (himg : ((eventPreviewImagesOf db en.event.id).map (fun i => i.url)).Nodup)
    (hgids : (db.groups.map (fun g => g.id)).Nodup)
    (hvids : (db.venues.map (fun v => v.id)).Nodup) :
    en.numAttending = (attendingOf db en.event.id).length := by
  rcases List.mem_flatMap.mp hen with ⟨e, _, heen⟩
  simp only [eventEntriesFor] at heen
  rcases List.mem_map.mp heen with ⟨k, hk, rfl⟩
  show ((eventJoinRows db e).filter (fun r => eventRowKey r.2 == k && r.1.isSome)).length
    = (attendingOf db e.id).length
  rcases List.mem_map.mp (List.mem_dedup.mp hk) with ⟨r0, hr0, rfl⟩
  have hrest : r0.2 ∈ eventRestRows db e := (mem_join.mp hr0).2
  have h1 := length_filter_join (orNull (attendingOf db e.id)) (eventRestRows db e)
    (fun o => o.isSome) (fun r2 => eventRowKey r2 == eventRowKey r0.2)
  have h2 := length_filter_isSome_orNull (attendingOf db e.id)
  have h3 := restRows_key_count db e himg hgids hvids hrest
  exact h1.trans (by simp [h2, h3])

theorem getGroupEvents_numAttending_of_nodup_witness :
    enEvW.numAttending = (attendingOf dbSimple enEvW.event.id).length ∧
    (attendingOf dbSimple enEvW.event.id).length = 1 :=
  ⟨getGroupEvents_numAttending_of_nodup dbSimple 1 enEvW (by decide) (by decide)
    (by decide) (by decide),
   by decide⟩

/-- Claim C3 is false as stated: in `dbDupEvImg` the one event has one
attending Attendance row but two preview images sharing a url, and the listing
reports `numAttending = 2`. -/
theorem getGroupEvents_numAttending_counterexample :
    ¬ (∀ en ∈ getGroupEvents dbDupEvImg 1,
        en.numAttending = (attendingOf dbDupEvImg en.event.id).length) := by
  decide

end Api

namespace Api

/-! ### Group-creation validation at the about-length boundary -/

/-- Claim C8: a `POST /groups` body whose `about` has length 49 fails
validation with an `about` entry in the per-field error map, a 400 status, and
an unchanged store (validation runs before any write); the same body with
`about` of length 50 passes the about check, and when the whole body validates
the route answers 200 and appends exactly the new Group row. -/
theorem postGroup_about_boundary (db : DB) (uid : Nat) (b : GroupBody) (s : String)
    (hab : b.about = some s) :
    (s.length = 49 →
      ("about", "About must be 50 characters or more") ∈ validateGroupErrors b ∧
      postGroupRoute db (some uid) b = (400, db)) ∧
    (s.length = 50 →
      aboutError b.about = [] ∧
      ((validateGroupErrors b).isEmpty = true →
        (postGroupRoute db (some uid) b).1 = 200 ∧
        (postGroupRoute db (some uid) b).2.groups = db.groups ++
          [{ id := nextGroupId db, organizerId := uid, name := b.name.getD "",
             about := s, type := b.type.getD "", «private» := b.«private».getD false,
             city := b.city.getD "", state := b.state.getD "" }])) := by
  constructor
  · intro h49
    have hsne : (s == "") = false := by
      refine beq_eq_false_iff_ne.mpr ?_
      intro hc
      rw [hc] at h49
      exact absurd h49 (by decide)
    have habout : aboutError b.about
        = [("about", "About must be 50 characters or more")] := by
      rw [hab]
      simp [aboutError, hsne, h49]
    have hmem : ("about", "About must be 50 characters or more")
        ∈ validateGroupErrors b := by
      unfold validateGroupErrors
      rw [habout]
      simp
    have hne : validateGroupErrors b ≠ [] := List.ne_nil_of_mem hmem
    have hempty : (validateGroupErrors b).isEmpty = false := by
      cases hcase : (validateGroupErrors b).isEmpty with
      | false => rfl
      | true => exact absurd (List.isEmpty_iff.mp hcase) hne
    refine ⟨hmem, ?_⟩
    simp [postGroupRoute, hempty]
  · intro h50
    have hsne : (s == "") = false := by
      refine beq_eq_false_iff_ne.mpr ?_
      intro hc
      rw [hc] at h50
      exact absurd h50 (by decide)
    have habout : aboutError b.about = [] := by
      rw [hab]
      simp [aboutError, hsne, h50]
    refine ⟨habout, fun hempt => ⟨?_, ?_⟩⟩
    · simp [postGroupRoute, hempt]
    · simp [postGroupRoute, hempt, hab]

theorem postGroup_about_boundary_witness :
    (("about", "About must be 50 characters or more") ∈ validateGroupErrors b49 ∧
      postGroupRoute dbSimple (some 9) b49 = (400, dbSimple)) ∧
    ((postGroupRoute dbSimple (some 9) b50).1 = 200 ∧
      (postGroupRoute dbSimple (some 9) b50).2.groups = dbSimple.groups ++
        [{ id := nextGroupId dbSimple, organizerId := 9, name := b50.name.getD "",
           about := s50, type := b50.type.getD "",
           «private» := b50.«private».getD false,
           city := b50.city.getD "", state := b50.state.getD "" }]) :=
  ⟨(postGroup_about_boundary dbSimple 9 b49 s49 rfl).1 (by decide),
   ((postGroup_about_boundary dbSimple 9 b50 s50 rfl).2 (by decide)).2 (by decide)⟩

/-! ### Field shape of the event-listing response -/

/-- Claim C9: a serialized event-listing entry carries no `description`,
`capacity`, or `price` key, does carry `numAttending`, `previewImage`, `Group`
and `Venue` keys, and its nested summaries carry exactly the keys
id/name/city/state (Group) and id/city/state (Venue). -/
theorem eventEntry_serialized_fields (en : EventEntry) :
    (jsonOfEventEntry en).map (fun p => p.1) =
      ["id", "groupId", "venueId", "name", "startDate", "numAttending",
       "previewImage", "Group", "Venue"] ∧
    "description" ∉ (jsonOfEventEntry en).map (fun p => p.1) ∧
    "capacity" ∉ (jsonOfEventEntry en).map (fun p => p.1) ∧
    "price" ∉ (jsonOfEventEntry en).map (fun p => p.1) ∧
    "numAttending" ∈ (jsonOfEventEntry en).map (fun p => p.1) ∧
    "previewImage" ∈ (jsonOfEventEntry en).map (fun p => p.1) ∧
    (∀ g, en.group = some g →
      objKeys (optJson groupSummaryJson en.group) = ["id", "name", "city", "state"]) ∧
    (∀ v, en.venue = some v →
      objKeys (optJson venueSummaryJson en.venue) = ["id", "city", "state"]) := by
  have hk : (jsonOfEventEntry en).map (fun p => p.1) =
      ["id", "groupId", "venueId", "name", "startDate", "numAttending",
       "previewImage", "Group", "Venue"] := rfl
  refine ⟨hk, ?_, ?_, ?_, ?_, ?_, ?_, ?_⟩
  · rw [hk]; decide
  · rw [hk]; decide
  · rw [hk]; decide
  · rw [hk]; decide
  · rw [hk]; decide
  · intro g hg
    rw [hg]
    rfl
  · intro v hv
    rw [hv]
    rfl

theorem eventEntry_serialized_fields_witness :
    objKeys (optJson groupSummaryJson enEvW.group) = ["id", "name", "city", "state"] ∧
    objKeys (optJson venueSummaryJson
      ({ event := evW1, numAttending := 0, previewImage := none, group := none,
         venue := some { id := 1, groupId := 1, address := "a", city := "c",
                         state := "s", lat := 1, lng := 2 } } : EventEntry).venue)
      = ["id", "city", "state"] :=
  ⟨(eventEntry_serialized_fields enEvW).2.2.2.2.2.2.1 gW1 rfl,
   (eventEntry_serialized_fields _).2.2.2.2.2.2.2
     { id := 1, groupId := 1, address := "a", city := "c", state := "s",
       lat := 1, lng := 2 } rfl⟩

/-! ### Frame property of the group update route -/

/-- Claim C10: with an authenticated organizer, an existing group, and a valid
body, `PUT /groups/:groupId` answers 200 and modifies only the six columns
name/about/type/private/city/state of the one Group row with the given id —
that row keeps its `id` and `organizerId`, every other Group row is unchanged
in place, and every other table is untouched. -/
theorem putGroup_frame (db : DB) (uid gid : Nat) (b : GroupBody) (g : Group)
    (hfind : findGroup db gid = some g) (horg : g.organizerId = uid)
    (hval : (validateGroupErrors b).isEmpty = true) :
    (putGroupRoute db (some uid) gid b).1 = 200 ∧
    (putGroupRoute db (some uid) gid b).2.memberships = db.memberships ∧
    (putGroupRoute db (some uid) gid b).2.groupImages = db.groupImages ∧
    (putGroupRoute db (some uid) gid b).2.venues = db.venues ∧
    (putGroupRoute db (some uid) gid b).2.events = db.events ∧
    (putGroupRoute db (some uid) gid b).2.attendances = db.attendances ∧
    (putGroupRoute db (some uid) gid b).2.eventImages = db.eventImages ∧
    (putGroupRoute db (some uid) gid b).2.groups.length = db.groups.length ∧
    ∀ i (h1 : i < db.groups.length)
      (h2 : i < (putGroupRoute db (some uid) gid b).2.groups.length),
      ((putGroupRoute db (some uid) gid b).2.groups.get ⟨i, h2⟩).id
          = (db.groups.get ⟨i, h1⟩).id ∧
      ((putGroupRoute db (some uid) gid b).2.groups.get ⟨i, h2⟩).organizerId
          = (db.groups.get ⟨i, h1⟩).organizerId ∧
      ((db.groups.get ⟨i, h1⟩).id ≠ gid →
        (putGroupRoute db (some uid) gid b).2.groups.get ⟨i, h2⟩
          = db.groups.get ⟨i, h1⟩) ∧
      ((db.groups.get ⟨i, h1⟩).id = gid →
        ((putGroupRoute db (some uid) gid b).2.groups.get ⟨i, h2⟩).name
            = b.name.getD "" ∧
        ((putGroupRoute db (some uid) gid b).2.groups.get ⟨i, h2⟩).about
            = b.about.getD "" ∧
        ((putGroupRoute db (some uid) gid b).2.groups.get ⟨i, h2⟩).type
            = b.type.getD "" ∧
        ((putGroupRoute db (some uid) gid b).2.groups.get ⟨i, h2⟩).«private»
            = b.«private».getD false ∧
        ((putGroupRoute db (some uid) gid b).2.groups.get ⟨i, h2⟩).city
            = b.city.getD "" ∧
        ((putGroupRoute db (some uid) gid b).2.groups.get ⟨i, h2⟩).state
            = b.state.getD "") := by
  have hbeq : (g.organizerId == uid) = true := by simp [horg]
  have hroute : putGroupRoute db (some uid) gid b =
      (200, { db with groups := db.groups.map (fun g0 =>
        if g0.id == gid then
          { g0 with
            name := b.name.getD ""
            about := b.about.getD ""
            type := b.type.getD ""
            «private» := b.«private».getD false
            city := b.city.getD ""
            state := b.state.getD "" }
        else g0) }) := by
    simp [putGroupRoute, hfind, hbeq, hval]
  rw [hroute]
  refine ⟨rfl, rfl, rfl, rfl, rfl, rfl, rfl, by simp, ?_⟩
  intro i h1 h2
  rw [List.get_eq_getElem, List.get_eq_getElem, List.getElem_map]
  cases hc : (db.groups[i]).id == gid with
  | true =>
    have hid : (db.groups[i]).id = gid := beq_iff_eq.mp hc
    exact ⟨by simp [hc, hid], by simp [hc, hid], fun hne => absurd hid hne,
      fun _ => ⟨by simp [hc, hid], by simp [hc, hid], by simp [hc, hid],
        by simp [hc, hid], by simp [hc, hid], by simp [hc, hid]⟩⟩
  | false =>
    have hid : (db.groups[i]).id ≠ gid := by
      rw [beq_eq_false_iff_ne] at hc
      exact hc
    exact ⟨by simp [hc, hid], by simp [hc, hid], fun _ => by simp [hc, hid],
      fun heq => absurd heq hid⟩

theorem putGroup_frame_witness :
    (putGroupRoute dbSimple (some 9) 1 bUpd).1 = 200 ∧
    (putGroupRoute dbSimple (some 9) 1 bUpd).2.memberships = dbSimple.memberships ∧
    (putGroupRoute dbSimple (some 9) 1 bUpd).2.groups.get ⟨1, by decide⟩
      = dbSimple.groups.get ⟨1, by decide⟩ := by
  have h := putGroup_frame dbSimple 9 1 bUpd gW1 (by decide) rfl (by decide)
  exact ⟨h.1, h.2.1,
    (h.2.2.2.2.2.2.2.2 1 (by decide) (by decide)).2.2.1 (by decide)⟩

end Api
